import Mathlib

/-!
Shallow embedding of the Escapement library (Escapement.h / Escapement.cpp,
version 0.3): the beat-timing state machine and temperature-indexed
calibration engine.

Modelling conventions:
* C `long` (32-bit on AVR) arithmetic on the timing path is modelled as
  mathematical `Int` with explicit two's-complement wrap-around (`wrap32`)
  at every operation where the value can leave the 32-bit range.
* C truncating integer division is `Int.tdiv`.
* `unsigned long` timestamps are `Nat` reduced mod 2^32.
* The `float` fields `slope` and `intercept` are modelled as `ℚ`; the
  claims settled against them only exercise states where the floating-point
  computation is exact (small integers and zero), so the rational model
  agrees with IEEE single precision there.
* An out-of-bounds array index (C undefined behaviour) is modelled as the
  explicit error outcome `none` of `beatO`.
-/

/-- Run mode constant COLDSTART from Escapement.h. -/
def COLDSTART : Nat := 0

/-- Run mode constant WARMSTART from Escapement.h. -/
def WARMSTART : Nat := 1

/-- Run mode constant CALIBRATE from Escapement.h (the spec's Collect). -/
def CALIBRATE : Nat := 2

/-- Run mode constant CALFINISH from Escapement.h (the spec's Model). -/
def CALFINISH : Nat := 3

/-- Run mode constant RUN from Escapement.h. -/
def RUN : Nat := 4

/-- Run mode constant CALRTC from Escapement.h. -/
def CALRTC : Nat := 5

/-- Number of beats of WARMSTART mode (the spec's TGT_WARMUP). -/
def TGT_SCALE : Int := 512

/-- Samples needed to complete a temperature bucket (the spec's TARGET_SAMPLES). -/
def TGT_SMOOTHING : Int := 8192

/-- Initial guess at peakScale. -/
def INIT_PEAK : Int := 10

/-- Peak scaling target. -/
def MAX_PEAK : Int := 1

/-- Sentinel for a failed temperature read: 0xfc80 reinterpreted as a 16-bit
two's-complement int is -896. -/
def NO_TEMP : Int := -896

/-- Sentinel for an out-of-range temperature index (the spec's OutOfRange). -/
def NO_CAL : Int := -1

/-- Lowest calibrated temperature in degrees C. -/
def TEMP_MIN : Int := 18

/-- Number of half-degree temperature buckets (the spec's N_BUCKETS). -/
def TEMP_STEPS : Nat := 20

/-- EEPROM format tag 0x5346. -/
def SETTINGS_TAG : Int := 21318

/-- Two's-complement wrap-around into the signed 32-bit range, modelling the
behaviour of 32-bit `long` arithmetic on AVR. -/
def wrap32 (n : Int) : Int := (n + 2147483648) % 4294967296 - 2147483648

/-- Reinterpret an unsigned 32-bit value (given mod 2^32) as signed `long`. -/
def toInt32 (n : Nat) : Int := wrap32 (n : Int)

/-- The bias correction of Escapement.cpp line 222:
`deltaT += ((eeprom.bias * deltaT) + 432000) / 864000;` with `int` bias
promoted to 32-bit `long` and C truncating division. -/
def correctedDuration (raw bias : Int) : Int :=
  wrap32 (raw + (wrap32 (wrap32 (bias * raw) + 432000)).tdiv 864000)

/-- Follows the spec's words (§4.1 / §8): `raw + round(raw × bias / 864000)`
with round-half-up implemented by adding half the divisor before (C) integer
division, over unbounded integers. Used only to compare against
`correctedDuration`, the embedding of the code. -/
def specCorrectedDuration (raw bias : Int) : Int :=
  raw + (bias * raw + 432000).tdiv 864000

/-- Truncation of a rational toward zero: the C conversion from `float` to
`long`. -/
def qtrunc (q : ℚ) : Int := q.num.tdiv (q.den : Int)

/-- `Escapement::getTempIx` (Escapement.cpp lines 494-501): temperature
(degrees C * 256) to bucket index, `NO_CAL` when out of range. -/
def getTempIx (compensated : Bool) (t : Int) : Int :=
  if compensated = false then 0
  else if 0 ≤ t.tdiv 128 - 2 * TEMP_MIN ∧ t.tdiv 128 - 2 * TEMP_MIN < (TEMP_STEPS : Int)
  then t.tdiv 128 - 2 * TEMP_MIN
  else NO_CAL

/-- Follows the spec's words (§4.2): bucket index computed with
round-to-nearest, `(temp + 64) / 128 - 2×MIN_TEMP`. Used only to compare
against `getTempIx`, the embedding of the code. -/
def specBucketOf (compensated : Bool) (t : Int) : Int :=
  if compensated = false then 0
  else if 0 ≤ (t + 64).tdiv 128 - 2 * TEMP_MIN ∧
          (t + 64).tdiv 128 - 2 * TEMP_MIN < (TEMP_STEPS : Int)
  then (t + 64).tdiv 128 - 2 * TEMP_MIN
  else NO_CAL

/-- The incremental mean update of Escapement.cpp lines 261 and 270:
`uspb += (period - uspb) / curSmoothing; ++curSmoothing`.
Takes the current mean and sample count, returns the new ones. -/
def recordSample (mean count d : Int) : Int × Int :=
  (mean + (d - mean).tdiv count, count + 1)

/-- Feed a fresh bucket (mean 0, count 1, the reset state) a list of
durations through `recordSample`. -/
def runSamples (ds : List Int) : Int × Int :=
  ds.foldl (fun p d => recordSample p.1 p.2 d) (0, 1)

/-- Bounds-checked array read: C array indexing, with `none` for the
out-of-bounds accesses that are undefined behaviour in the source. -/
def lget (l : List Int) (i : Int) : Option Int :=
  if 0 ≤ i ∧ i < (l.length : Int) then some (l.getD i.toNat 0) else none

/-- Array write at an index already validated by `lget`. -/
def lset (l : List Int) (i : Int) (v : Int) : List Int :=
  l.set i.toNat v

/-- The marking loop of `Escapement::writeEEPROM` (lines 545-549 and
551-555): negate the mean of every bucket that is not yet complete. -/
def negIncomplete (sm us : List Int) : List Int :=
  List.zipWith (fun c u => if c ≤ TGT_SMOOTHING then -u else u) sm us

/-- The persisted settings block `settings_t` of Escapement.h
(`peakScale` and the timing fields; the spec's PersistentSettings). -/
structure Settings where
  id : Int
  bias : Int
  peakScale : Int
  deltaUspb : Int
  compensated : Bool
  uspb : List Int
  temp : List Int
deriving DecidableEq

/-- The in-memory state of an `Escapement` object: the `eeprom` member plus
the instance variables that the beat state machine reads or writes. -/
structure State where
  id : Int
  bias : Int
  peakScale : Int
  deltaUspb : Int
  compensated : Bool
  uspb : List Int
  tempArr : List Int
  curSmoothing : List Int
  beatCounter : Int
  temp : Int
  lastTemp : Int
  slope : ℚ
  intercept : ℚ
  tick : Bool
  tickPeriod : Int
  tockPeriod : Int
  lastTime : Nat
  timeBeforeLast : Nat
  deltaT : Int
  tempIx : Int
  runMode : Nat
deriving DecidableEq

/-- One detected oscillator pass: the reference-clock timestamp, the scaled
peak voltage observed, and the sensor reading that `readTemp` would return. -/
structure Input where
  topTime : Nat
  pastCoil : Int
  newTemp : Int
deriving DecidableEq

/-- `Escapement::writeEEPROM` (lines 543-556): mark, write, restore.
Returns the new in-memory state and the block written to EEPROM. -/
def writeEEPROM (s : State) : State × Settings :=
  let marked := negIncomplete s.curSmoothing s.uspb
  let s1 : State := { s with id := SETTINGS_TAG, uspb := marked }
  let blk : Settings :=
    { id := s1.id, bias := s1.bias, peakScale := s1.peakScale,
      deltaUspb := s1.deltaUspb, compensated := s1.compensated,
      uspb := s1.uspb, temp := s1.tempArr }
  ({ s1 with uspb := negIncomplete s1.curSmoothing s1.uspb }, blk)

/-- `Escapement::readEEPROM` (lines 510-540): load the stored block if the
tag matches, fixing up invalid (non-positive) bucket means; otherwise
install defaults. Returns the C function's boolean and the new state. -/
def readEEPROM (s : State) (blk : Settings) : Bool × State :=
  if blk.id = SETTINGS_TAG then
    (true,
      { s with
        id := blk.id, bias := blk.bias, peakScale := blk.peakScale,
        deltaUspb := blk.deltaUspb, compensated := blk.compensated,
        uspb := blk.uspb.map (fun u => if u ≤ 0 then 0 else u),
        tempArr := (blk.uspb.zip blk.temp).map
          (fun p => if p.1 ≤ 0 then 0 else p.2),
        curSmoothing := blk.uspb.map
          (fun u => if u ≤ 0 then 1 else TGT_SMOOTHING + 1) })
  else
    (false,
      { s with
        id := 0, bias := 0, peakScale := INIT_PEAK, deltaUspb := 0,
        compensated := true,
        uspb := List.replicate TEMP_STEPS 0,
        tempArr := List.replicate TEMP_STEPS 0,
        curSmoothing := List.replicate TEMP_STEPS 1 })

/-- The accumulation loop of `Escapement::makeModel` (lines 444-454):
sums over the complete buckets, float arithmetic modelled as `ℚ`. -/
def calSums : List Int → List Int → List Int → ℚ × ℚ × ℚ × ℚ × Int
  | c :: cs, t :: ts, u :: us =>
    let (xS, yS, xxS, xyS, n) := calSums cs ts us
    if c > TGT_SMOOTHING then
      (xS + (t : ℚ), yS + (u : ℚ), xxS + (t : ℚ) * (t : ℚ),
       xyS + (t : ℚ) * (u : ℚ), n + 1)
    else (xS, yS, xxS, xyS, n)
  | _, _, _ => (0, 0, 0, 0, 0)

/-- `Escapement::makeModel` (lines 436-462): least-squares fit over the
complete buckets; with fewer than two points, slope 0 and intercept the sum
of the (0 or 1) means. -/
def makeModel (s : State) : State :=
  let (xS, yS, xxS, xyS, n) := calSums s.curSmoothing s.tempArr s.uspb
  if n > 1 then
    let sl := ((n : ℚ) * xyS - xS * yS) / ((n : ℚ) * xxS - xS * xS)
    { s with slope := sl, intercept := (yS - sl * xS) / (n : ℚ) }
  else
    { s with slope := 0, intercept := yS }

/-- `Escapement::setRunMode` (lines 398-429): per-mode entry effects, then
store the new mode. -/
def setRunMode (s : State) (m : Nat) : State :=
  let s1 :=
    if m = COLDSTART then { s with id := 0, bias := 0 }
    else if m = WARMSTART then
      { s with
        beatCounter := 1,
        compensated := decide (s.temp ≠ NO_TEMP),
        peakScale := INIT_PEAK,
        deltaUspb := 0,
        uspb := List.replicate TEMP_STEPS 0,
        tempArr := List.replicate TEMP_STEPS 0,
        curSmoothing := List.replicate TEMP_STEPS 1 }
    else if m = RUN then makeModel s
    else s
  { s1 with runMode := m }

/-- `Escapement::enable` (lines 155-184): initialise the per-beat
variables, then choose the starting mode from the stored settings.
`prior` is the object state before the call (globals are zero-initialised
on the first call), `blk` the EEPROM contents, `sensorTemp` what
`readTemp()` returns at startup. -/
def enable (prior : State) (blk : Settings) (forceCold : Bool)
    (sensorTemp : Int) : State :=
  let s : State :=
    { prior with
      beatCounter := 1, temp := sensorTemp, lastTemp := sensorTemp,
      tempIx := getTempIx prior.compensated sensorTemp,
      tick := true, tickPeriod := 0, tockPeriod := 0,
      lastTime := 0, timeBeforeLast := 0, deltaT := 0 }
  if forceCold = false then
    let (ok, s1) := readEEPROM s blk
    if ok then
      if s1.peakScale > INIT_PEAK ∧ decide (s1.temp ≠ NO_TEMP) = s1.compensated
      then setRunMode s1 RUN
      else setRunMode s1 WARMSTART
    else setRunMode s1 COLDSTART
  else setRunMode s COLDSTART

/-- COLDSTART case of the `beat` switch (lines 233-235). -/
def stepCold (s : State) (dT : Int) : Option (State × Int) :=
  some (setRunMode s WARMSTART, dT)

/-- WARMSTART case of the `beat` switch (lines 236-248). -/
def stepWarm (s : State) (pastCoil dT : Int) : Option (State × Int) :=
  let s1 := if pastCoil > MAX_PEAK then { s with peakScale := s.peakScale + 1 } else s
  let s2 := if s1.tick then { s1 with tickPeriod := dT } else { s1 with tockPeriod := dT }
  let s3 := { s2 with beatCounter := s2.beatCounter + 1 }
  some ((if s3.beatCounter > TGT_SCALE then setRunMode s3 CALIBRATE else s3), dT)

/-- Body of the CALIBRATE case after the bucket-change check
(lines 258-275).  The period recomputed at lines 259-260 and 263-264 is
the same expression as `dT`, so `dT` is recorded.  An out-of-range
`tempIx` makes the C code index `uspb[-1]` / `curSmoothing[-1]`:
modelled as `none`. -/
def stepCalRest (s : State) (dT : Int) : Option (State × Int) :=
  let s1 := if s.tick then { s with tickPeriod := dT } else { s with tockPeriod := dT }
  match lget s1.uspb s1.tempIx, lget s1.curSmoothing s1.tempIx with
  | some u, some c =>
    let s2 := { s1 with uspb := lset s1.uspb s1.tempIx (recordSample u c dT).1 }
    let s3 :=
      if s2.compensated then
        match lget s2.tempArr s2.tempIx with
        | some tv =>
          some { s2 with tempArr := lset s2.tempArr s2.tempIx (tv + (s2.temp - tv).tdiv c) }
        | none => none
      else some s2
    match s3 with
    | none => none
    | some s4 =>
      let s5 := { s4 with curSmoothing := lset s4.curSmoothing s4.tempIx (c + 1) }
      if c + 1 > TGT_SMOOTHING then
        some (setRunMode (writeEEPROM s5).1 CALFINISH, dT)
      else some (s5, dT)
  | _, _ => none

/-- CALIBRATE case of the `beat` switch (lines 249-275): bucket-change
check first, then sample recording. -/
def stepCal (s : State) (dT : Int) : Option (State × Int) :=
  if s.tempIx ≠ getTempIx s.compensated s.lastTemp then
    match lget s.curSmoothing s.tempIx with
    | none => none
    | some c0 =>
      if c0 > TGT_SMOOTHING then some (setRunMode s RUN, dT)
      else stepCalRest s dT
  else stepCalRest s dT

/-- RUN case of the `beat` switch (lines 279-284): possible switch to
CALIBRATE, then the model evaluation
`deltaT = slope * temp + intercept + eeprom.deltaUspb` (float, truncated
to `long`). -/
def stepRun (s : State) (_dT : Int) : Option (State × Int) :=
  if s.tempIx ≠ NO_CAL then
    match lget s.curSmoothing s.tempIx with
    | none => none
    | some c =>
      let s1 := if c ≤ TGT_SMOOTHING then setRunMode s CALIBRATE else s
      some (s1, qtrunc (s1.slope * (s1.temp : ℚ) + s1.intercept + (s1.deltaUspb : ℚ)))
  else some (s, qtrunc (s.slope * (s.temp : ℚ) + s.intercept + (s.deltaUspb : ℚ)))

/-- CALRTC case of the `beat` switch (lines 285-291). -/
def stepCalRtc (s : State) (dT : Int) : Option (State × Int) :=
  some ((if s.tick then { s with tickPeriod := dT } else { s with tockPeriod := dT }), dT)

/-- The `switch (runMode)` of `beat` (lines 232-292). -/
def stepSwitch (s : State) (i : Input) (dT : Int) : Option (State × Int) :=
  if s.runMode = COLDSTART then stepCold s dT
  else if s.runMode = WARMSTART then stepWarm s i.pastCoil dT
  else if s.runMode = CALIBRATE then stepCal s dT
  else if s.runMode = CALFINISH then some (setRunMode s RUN, dT)
  else if s.runMode = RUN then stepRun s dT
  else if s.runMode = CALRTC then stepCalRtc s dT
  else some (s, dT)

/-- The raw inter-beat interval `topTime - lastTime` (line 220): unsigned
32-bit subtraction reinterpreted as signed `long`. -/
def rawDelta (s : State) (i : Input) : Int :=
  toInt32 ((i.topTime % 4294967296 + (4294967296 - s.lastTime % 4294967296)) % 4294967296)

/-- `Escapement::beat` (lines 187-297) from the point where the magnet
pass has been timed: the baseline case, the bias correction, the spurious
guard, the temperature update, the mode switch, and the epilogue.
Returns the new state and the duration `beat` returns, or `none` when the
source indexes a calibration array out of bounds (undefined behaviour). -/
def beatO (s : State) (i : Input) : Option (State × Int) :=
  let tt := i.topTime % 4294967296
  if s.lastTime = 0 then some ({ s with lastTime := tt }, 0)
  else
    let dT := correctedDuration (rawDelta s i) s.bias
    if dT > 5000000 then some ({ s with deltaT := 0 }, 0)
    else
      let s1 :=
        if s.temp ≠ NO_TEMP then
          { s with lastTemp := s.temp, temp := i.newTemp,
                   tempIx := getTempIx s.compensated i.newTemp }
        else s
      match stepSwitch s1 i dT with
      | none => none
      | some (s2, d2) =>
        some ({ s2 with tick := !s2.tick, timeBeforeLast := s2.lastTime,
                        lastTime := tt, deltaT := d2 }, d2)

/-- Iterate `beatO` over a list of events, stopping at the first
out-of-bounds error. -/
def runBeats : State → List Input → Option State
  | s, [] => some s
  | s, i :: rest =>
    match beatO s i with
    | none => none
    | some (s', _) => runBeats s' rest

/-- A zero-initialised `Escapement` object, as C++ zero-initialises the
global before `enable` runs. -/
def initState : State :=
  { id := 0, bias := 0, peakScale := 0, deltaUspb := 0, compensated := false,
    uspb := List.replicate TEMP_STEPS 0, tempArr := List.replicate TEMP_STEPS 0,
    curSmoothing := List.replicate TEMP_STEPS 0, beatCounter := 0,
    temp := 0, lastTemp := 0, slope := 0, intercept := 0, tick := false,
    tickPeriod := 0, tockPeriod := 0, lastTime := 0, timeBeforeLast := 0,
    deltaT := 0, tempIx := 0, runMode := 0 }

/-- EEPROM contents that fail the tag check (never written). -/
def blankSettings : Settings :=
  { id := 0, bias := 0, peakScale := 0, deltaUspb := 0, compensated := false,
    uspb := List.replicate TEMP_STEPS 0, temp := List.replicate TEMP_STEPS 0 }

/-- A sequence of `n` events one nominal second apart at a constant
in-range temperature of 25 °C (fixed point 6400), with no voltage peak. -/
def mkInputs (n : Nat) : List Input :=
  (List.range n).map (fun k => { topTime := 1000000 * (k + 1), pastCoil := 0, newTemp := 6400 })

/-- A state that has seen one event (baseline at time 1). -/
def spuriousState : State :=
  { initState with lastTime := 1 }

/-- Valid persisted settings from a machine that has been through scaling
(`peakScale > INIT_PEAK`), temperature compensated, with no calibrated
buckets. -/
def hotSettings : Settings :=
  { id := 21318, bias := 0, peakScale := 11, deltaUspb := 0, compensated := true,
    uspb := List.replicate TEMP_STEPS 0, temp := List.replicate TEMP_STEPS 0 }

/-- A steady RUN-mode state: every bucket complete, zero fitted model,
sensor reading 25 °C, previous event at clock time 1000. -/
def runState : State :=
  { id := 21318, bias := 0, peakScale := 11, deltaUspb := 0, compensated := true,
    uspb := List.replicate TEMP_STEPS 1000000, tempArr := List.replicate TEMP_STEPS 6400,
    curSmoothing := List.replicate TEMP_STEPS 9000, beatCounter := 1,
    temp := 6400, lastTemp := 6400, slope := 0, intercept := 0, tick := true,
    tickPeriod := 0, tockPeriod := 0, lastTime := 1000, timeBeforeLast := 0,
    deltaT := 0, tempIx := 14, runMode := RUN }

/-- A CALIBRATE-mode state collecting in bucket 0, with the temperature
100 fixed-point units above the bucket-0 center (18 °C = 4608). -/
def calState : State :=
  { id := 0, bias := 0, peakScale := 10, deltaUspb := 0, compensated := true,
    uspb := List.replicate TEMP_STEPS 0, tempArr := List.replicate TEMP_STEPS 0,
    curSmoothing := List.replicate TEMP_STEPS 1, beatCounter := 1,
    temp := 4708, lastTemp := 4708, slope := 0, intercept := 0, tick := true,
    tickPeriod := 0, tockPeriod := 0, lastTime := 1000, timeBeforeLast := 0,
    deltaT := 0, tempIx := 0, runMode := CALIBRATE }

/-- A CALIBRATE-mode state whose bucket 14 (25 °C) has 8192 samples: the
next admitted sample completes it. -/
def calDoneState : State :=
  { calState with
    temp := 6400
    lastTemp := 6400
    tempIx := 14
    uspb := List.replicate TEMP_STEPS 1000000
    curSmoothing := List.set (List.replicate TEMP_STEPS 1) 14 8192 }

/-- `calDoneState` after the switch to CALFINISH. -/
def calFinState : State :=
  { calDoneState with runMode := CALFINISH }

/-- A small state exercising `writeEEPROM` with one incomplete and one
complete bucket. -/
def wTableState : State :=
  { initState with uspb := [10, 20], curSmoothing := [1, 9000], tempArr := [5, 6] }

/-! ## Helper lemmas -/

/-- `wrap32` is the identity on the signed 32-bit range. -/
theorem wrap32_id {n : Int} (h1 : -2147483648 ≤ n) (h2 : n < 2147483648) :
    wrap32 n = n := by
  unfold wrap32
  rw [Int.emod_eq_of_lt (by omega) (by omega)]
  omega

/-- Truncating division by 864000 of a 32-bit value is at most 2485 in
magnitude. -/
theorem tdiv_864000_natAbs_le {a : Int} (h : a.natAbs ≤ 2147483647) :
    (a.tdiv 864000).natAbs ≤ 2485 := by
  rw [Int.natAbs_tdiv]
  show a.natAbs / 864000 ≤ 2485
  omega

/-- Negating the dividend negates the truncating remainder. -/
theorem tmod_neg_dividend (a b : Int) : (-a).tmod b = -(a.tmod b) := by
  rw [Int.tmod_def, Int.tmod_def, Int.neg_tdiv]
  ring

/-- The truncating remainder by a positive divisor lies in `[-(b-1), b-1]`. -/
theorem tmod_bounds (a : Int) {b : Int} (hb : 0 < b) :
    -(b - 1) ≤ a.tmod b ∧ a.tmod b ≤ b - 1 := by
  rcases le_or_lt 0 a with ha | ha
  · have h1 := Int.tmod_nonneg b ha
    have h2 := Int.tmod_lt_of_pos a hb
    omega
  · have e := tmod_neg_dividend (-a) b
    simp only [neg_neg] at e
    have h1 := Int.tmod_nonneg b (by omega : (0:Int) ≤ -a)
    have h2 := Int.tmod_lt_of_pos (-a) hb
    omega

/-! ## C2 -/

/-- Claim C2 counterexample: at bias 1000 and raw interval 3,000,000 µs the
32-bit product `bias * deltaT` wraps, so the code's corrected duration
(2,998,502) differs from `r + round(r*b/864000)` (3,003,472); the claim's
universally quantified equality fails on the code. -/
theorem correctedDuration_overflow_cex :
    correctedDuration 3000000 1000 = 2998502 ∧
    specCorrectedDuration 3000000 1000 = 3003472 ∧
    correctedDuration 3000000 1000 ≠ specCorrectedDuration 3000000 1000 :=
  ⟨by decide, by decide, by decide⟩

/-- Claim C2 (amended): for a raw interval `r ∈ [0, 5,000,000]` the
bias-corrected duration equals `r + round(r*b/864000)` (round-half-up by
adding half the divisor before C truncating division) whenever the 32-bit
product `b*r` does not overflow (`|b*r| ≤ 2^31 - 1 - 432000`); and for
`b = 0` the corrected duration equals `r` exactly. -/
theorem correctedDuration_roundHalfUp :
    (∀ r b : Int, 0 ≤ r → r ≤ 5000000 → (b * r).natAbs ≤ 2147051647 →
      correctedDuration r b = specCorrectedDuration r b) ∧
    (∀ r : Int, 0 ≤ r → r ≤ 5000000 → correctedDuration r 0 = r) := by
  have main : ∀ r b : Int, 0 ≤ r → r ≤ 5000000 → (b * r).natAbs ≤ 2147051647 →
      correctedDuration r b = specCorrectedDuration r b := by
    intro r b hr1 hr2 hbr
    unfold correctedDuration specCorrectedDuration
    rw [wrap32_id (n := b * r) (by omega) (by omega)]
    rw [wrap32_id (n := b * r + 432000) (by omega) (by omega)]
    have hq := tdiv_864000_natAbs_le (a := b * r + 432000) (by omega)
    rw [wrap32_id (by omega) (by omega)]
  refine ⟨main, fun r hr1 hr2 => ?_⟩
  rw [main r 0 hr1 hr2 (by simp)]
  unfold specCorrectedDuration
  rw [zero_mul, zero_add]
  have h0 : Int.tdiv 432000 864000 = 0 := by decide
  rw [h0, add_zero]

/-- Witness for C2's amended theorem at `r = 1,000,000`, `b = 100` and the
zero-bias case. -/
theorem correctedDuration_roundHalfUp_witness :
    correctedDuration 1000000 100 = specCorrectedDuration 1000000 100 ∧
    correctedDuration 1000000 0 = 1000000 :=
  ⟨correctedDuration_roundHalfUp.1 1000000 100 (by decide) (by decide) (by decide),
   correctedDuration_roundHalfUp.2 1000000 (by decide) (by decide)⟩

/-- Truncating division by 128: equals Euclidean division for nonnegative
arguments, and is nonpositive for negative ones. -/
theorem tdiv128_cases (t : Int) :
    (0 ≤ t ∧ t.tdiv 128 = t / 128) ∨ (t < 0 ∧ t.tdiv 128 ≤ 0) := by
  rcases le_or_lt 0 t with h | h
  · exact Or.inl ⟨h, Int.tdiv_eq_ediv h (by norm_num)⟩
  · refine Or.inr ⟨h, ?_⟩
    have e := Int.neg_tdiv (-t) 128
    simp only [neg_neg] at e
    have h2 : 0 ≤ (-t).tdiv 128 := Int.tdiv_nonneg (by omega) (by norm_num)
    omega

/-! ## C6 -/

/-- Claim C6 counterexample: at fixed-point temperature 4672 (18.25 °C) the
code's truncating `t / 128` gives bucket 0, while the claimed
round-to-nearest `(t + 64) / 128` would give bucket 1: `getTempIx` has no
`+64` rounding step. -/
theorem getTempIx_rounding_cex :
    getTempIx true 4672 = 0 ∧ specBucketOf true 4672 = 1 ∧
    getTempIx true 4672 ≠ specBucketOf true 4672 :=
  ⟨by decide, by decide, by decide⟩

/-- Claim C6 (amended): with compensation disabled the bucket index is
always 0; with compensation enabled, the index is computed with truncating
division (no rounding): it equals `i ∈ [0, 20)` exactly when
`4608 + 128*i ≤ t < 4736 + 128*i` (buckets are aligned to their lower
edge `MIN_TEMP + i*0.5 °C`), and is `NO_CAL` exactly when `t < 4608` or
`7168 ≤ t`. -/
theorem getTempIx_characterization :
    (∀ t : Int, getTempIx false t = 0) ∧
    (∀ t i : Int, 0 ≤ i → i < 20 →
      (getTempIx true t = i ↔ 4608 + 128 * i ≤ t ∧ t < 4736 + 128 * i)) ∧
    (∀ t : Int, getTempIx true t = NO_CAL ↔ (t < 4608 ∨ 7168 ≤ t)) := by
  refine ⟨fun t => rfl, ?_, ?_⟩
  · intro t i h0 h20
    simp only [getTempIx, TEMP_MIN, TEMP_STEPS, NO_CAL, Bool.true_eq_false,
      if_false, Nat.cast_ofNat]
    rcases tdiv128_cases t with ⟨ht, he⟩ | ⟨ht, he⟩
    · rw [he]
      split <;> omega
    · split <;> omega
  · intro t
    simp only [getTempIx, TEMP_MIN, TEMP_STEPS, NO_CAL, Bool.true_eq_false,
      if_false, Nat.cast_ofNat]
    rcases tdiv128_cases t with ⟨ht, he⟩ | ⟨ht, he⟩
    · rw [he]
      split <;> omega
    · split <;> omega

/-- Witness for C6's amended theorem: temperature 4700 is in bucket 0,
temperature 12800 (50 °C) is out of range. -/
theorem getTempIx_characterization_witness :
    getTempIx true 4700 = 0 ∧ getTempIx true 12800 = NO_CAL :=
  ⟨(getTempIx_characterization.2.1 4700 0 (by decide) (by decide)).mpr
      ⟨by decide, by decide⟩,
   (getTempIx_characterization.2.2 12800).mpr (Or.inr (by decide))⟩

/-! ## C9 -/

/-- Error invariant of the incremental mean: starting from mean `m` after
`k ≥ 1` samples of sum `S` with doubled error within `k(k-1)`, folding more
samples keeps the doubled error of `mean * count` against the true sum
within `n(n-1)` for the new sample count `n`. -/
theorem runSamples_aux :
    ∀ (ds : List Int) (m S k : Int), 1 ≤ k →
      2 * (m * k - S) ≤ k * (k - 1) → -(k * (k - 1)) ≤ 2 * (m * k - S) →
      (List.foldl (fun p d => recordSample p.1 p.2 d) (m, k + 1) ds).2
          = k + 1 + ds.length ∧
      2 * ((List.foldl (fun p d => recordSample p.1 p.2 d) (m, k + 1) ds).1
            * (k + ds.length) - (S + ds.sum))
          ≤ (k + ds.length) * (k + ds.length - 1) ∧
      -((k + ds.length) * (k + ds.length - 1))
          ≤ 2 * ((List.foldl (fun p d => recordSample p.1 p.2 d) (m, k + 1) ds).1
            * (k + ds.length) - (S + ds.sum)) := by
  intro ds
  induction ds with
  | nil =>
    intro m S k hk h1 h2
    refine ⟨by simp, by simpa using h1, by simpa using h2⟩
  | cons d ds ih =>
    intro m S k hk h1 h2
    have hstep : List.foldl (fun p d => recordSample p.1 p.2 d) (m, k + 1) (d :: ds)
        = List.foldl (fun p d => recordSample p.1 p.2 d)
            (m + (d - m).tdiv (k + 1), (k + 1) + 1) ds := by
      simp [List.foldl_cons, recordSample]
    have hqr : (k + 1) * ((d - m).tdiv (k + 1)) + (d - m).tmod (k + 1) = d - m :=
      Int.tdiv_add_tmod _ _
    have hr := tmod_bounds (d - m) (show (0:Int) < k + 1 by omega)
    have key : (m + (d - m).tdiv (k + 1)) * (k + 1) - (S + d)
        = (m * k - S) - (d - m).tmod (k + 1) := by linear_combination hqr
    have exp1 : (k + 1) * ((k + 1) - 1) = k * (k - 1) + 2 * k := by ring
    have hb1 : 2 * ((m + (d - m).tdiv (k + 1)) * (k + 1) - (S + d))
        ≤ (k + 1) * ((k + 1) - 1) := by
      rw [key, exp1]; linarith [hr.1]
    have hb2 : -((k + 1) * ((k + 1) - 1))
        ≤ 2 * ((m + (d - m).tdiv (k + 1)) * (k + 1) - (S + d)) := by
      rw [key, exp1]; linarith [hr.2]
    obtain ⟨ha, hb, hc⟩ := ih (m + (d - m).tdiv (k + 1)) (S + d) (k + 1)
      (by omega) hb1 hb2
    rw [hstep]
    have el : ((d :: ds).length : Int) = (ds.length : Int) + 1 := by
      push_cast [List.length_cons]; ring
    have es : (d :: ds).sum = d + ds.sum := List.sum_cons
    refine ⟨?_, ?_, ?_⟩
    · rw [ha]; rw [el]; ring
    · rw [el, es]
      have e2 : k + ((ds.length : Int) + 1) = (k + 1) + (ds.length : Int) := by ring
      rw [e2]
      calc 2 * ((List.foldl (fun p d => recordSample p.1 p.2 d)
              (m + (d - m).tdiv (k + 1), (k + 1) + 1) ds).1
              * ((k + 1) + (ds.length : Int)) - (S + (d + ds.sum)))
          = 2 * ((List.foldl (fun p d => recordSample p.1 p.2 d)
              (m + (d - m).tdiv (k + 1), (k + 1) + 1) ds).1
              * ((k + 1) + (ds.length : Int)) - ((S + d) + ds.sum)) := by ring
        _ ≤ ((k + 1) + (ds.length : Int)) * ((k + 1) + (ds.length : Int) - 1) := hb
    · rw [el, es]
      have e2 : k + ((ds.length : Int) + 1) = (k + 1) + (ds.length : Int) := by ring
      rw [e2]
      calc -(((k + 1) + (ds.length : Int)) * ((k + 1) + (ds.length : Int) - 1))
          ≤ 2 * ((List.foldl (fun p d => recordSample p.1 p.2 d)
              (m + (d - m).tdiv (k + 1), (k + 1) + 1) ds).1
              * ((k + 1) + (ds.length : Int)) - ((S + d) + ds.sum)) := hc
        _ = 2 * ((List.foldl (fun p d => recordSample p.1 p.2 d)
              (m + (d - m).tdiv (k + 1), (k + 1) + 1) ds).1
              * ((k + 1) + (ds.length : Int)) - (S + (d + ds.sum))) := by ring

/-- Claim C9: `recordSample` with sample count 1 installs the duration as
the mean regardless of the prior mean and moves the count to 2; with any
count it applies `mean += (d - mean) / count` (truncating) then increments
the count; and feeding a fresh bucket any `k ≥ 1` durations leaves the
stored mean within accumulated integer-rounding tolerance of the true
arithmetic mean: `|2*(mean*k - sum)| ≤ k*(k-1)`, i.e. the mean is within
`(k-1)/2` of `sum/k`. -/
theorem recordSample_incremental_mean :
    (∀ m d : Int, recordSample m 1 d = (d, 2)) ∧
    (∀ m c d : Int, recordSample m c d = (m + (d - m).tdiv c, c + 1)) ∧
    (∀ ds : List Int, ds ≠ [] →
      (runSamples ds).2 = (ds.length : Int) + 1 ∧
      |2 * ((runSamples ds).1 * (ds.length : Int) - ds.sum)|
        ≤ (ds.length : Int) * ((ds.length : Int) - 1)) := by
  refine ⟨?_, fun m c d => rfl, ?_⟩
  · intro m d
    have e : m + (d - m).tdiv 1 = d := by rw [Int.tdiv_one]; ring
    simp [recordSample, e]
  · intro ds hne
    cases ds with
    | nil => exact absurd rfl hne
    | cons d rest =>
      have h0 : runSamples (d :: rest)
          = List.foldl (fun p d => recordSample p.1 p.2 d) (d, 1 + 1) rest := by
        have e : (0 : Int) + (d - 0).tdiv 1 = d := by rw [Int.tdiv_one]; ring
        simp [runSamples, List.foldl_cons, recordSample, e]
      obtain ⟨ha, hb, hc⟩ := runSamples_aux rest d d 1 le_rfl (by simp) (by simp)
      rw [h0]
      have el : ((d :: rest).length : Int) = 1 + (rest.length : Int) := by
        push_cast [List.length_cons]; ring
      have es : (d :: rest).sum = d + rest.sum := List.sum_cons
      constructor
      · rw [ha, el]; ring
      · rw [el, es, abs_le]
        constructor
        · calc -((1 + (rest.length : Int)) * (1 + (rest.length : Int) - 1))
              ≤ 2 * ((List.foldl (fun p d => recordSample p.1 p.2 d) (d, 1 + 1) rest).1
                  * (1 + (rest.length : Int)) - (d + rest.sum)) := hc
            _ = 2 * ((List.foldl (fun p d => recordSample p.1 p.2 d) (d, 1 + 1) rest).1
                  * (1 + (rest.length : Int)) - (d + rest.sum)) := by ring
        · calc 2 * ((List.foldl (fun p d => recordSample p.1 p.2 d) (d, 1 + 1) rest).1
                  * (1 + (rest.length : Int)) - (d + rest.sum))
              ≤ (1 + (rest.length : Int)) * (1 + (rest.length : Int) - 1) := hb

/-- Witness for C9 at concrete inputs: a first sample overwrites the mean,
and three samples 3, 5, 7 give count 4 and mean 5 (exact). -/
theorem recordSample_incremental_mean_witness :
    recordSample 7 1 9 = (9, 2) ∧
    (runSamples [3, 5, 7]).2 = (([3, 5, 7] : List Int).length : Int) + 1 ∧
    |2 * ((runSamples [3, 5, 7]).1 * (([3, 5, 7] : List Int).length : Int)
        - ([3, 5, 7] : List Int).sum)|
      ≤ (([3, 5, 7] : List Int).length : Int)
        * ((([3, 5, 7] : List Int).length : Int) - 1) := by
  obtain ⟨h1, _, h3⟩ := recordSample_incremental_mean
  obtain ⟨ha, hb⟩ := h3 [3, 5, 7] (by decide)
  exact ⟨h1 7 9, ha, hb⟩

/-! ## C10 -/

/-- Negating the incomplete-bucket means twice restores the original list
(when the count list is at least as long, as it always is in the source's
fixed-size arrays). -/
theorem negIncomplete_invol :
    ∀ (sm us : List Int), us.length ≤ sm.length →
      negIncomplete sm (negIncomplete sm us) = us := by
  intro sm us
  induction us generalizing sm with
  | nil => intro _; simp [negIncomplete]
  | cons u us ih =>
    intro h
    cases sm with
    | nil => simp at h
    | cons c sm =>
      simp only [negIncomplete, List.zipWith_cons_cons] at *
      by_cases hc : c ≤ TGT_SMOOTHING
      · simp only [if_pos hc, neg_neg]
        rw [ih sm (by simpa using h)]
      · simp only [if_neg hc]
        rw [ih sm (by simpa using h)]

/-- Entry `i` of the marked list is the negated mean exactly for incomplete
buckets. -/
theorem negIncomplete_getD :
    ∀ (sm us : List Int) (i : Nat), i < sm.length → i < us.length →
      (negIncomplete sm us).getD i 0 =
        if sm.getD i 0 ≤ TGT_SMOOTHING then -(us.getD i 0) else us.getD i 0 := by
  intro sm
  induction sm with
  | nil => intro us i h1 _; simp at h1
  | cons c sm ih =>
    intro us i h1 h2
    cases us with
    | nil => simp at h2
    | cons u us =>
      cases i with
      | zero => simp [negIncomplete]
      | succ j =>
        simp only [negIncomplete, List.zipWith_cons_cons, List.getD_cons_succ]
        exact ih us j (by simpa using h1) (by simpa using h2)

/-- Claim C10: `writeEEPROM` negates the means of incomplete buckets before
writing and negates them back afterwards, so the in-memory calibration
table (per-bucket mean and sample count) is exactly what it was before the
call, while the written block carries the negated means for incomplete
buckets (the in-memory `id` is additionally set to the format tag). -/
theorem writeEEPROM_preserves_table (s : State)
    (h : s.uspb.length ≤ s.curSmoothing.length) :
    (writeEEPROM s).1.uspb = s.uspb ∧
    (writeEEPROM s).1.curSmoothing = s.curSmoothing ∧
    (writeEEPROM s).1.tempArr = s.tempArr ∧
    (writeEEPROM s).1.id = SETTINGS_TAG ∧
    (∀ i : Nat, i < s.curSmoothing.length → i < s.uspb.length →
      (writeEEPROM s).2.uspb.getD i 0 =
        if s.curSmoothing.getD i 0 ≤ TGT_SMOOTHING then -(s.uspb.getD i 0)
        else s.uspb.getD i 0) := by
  refine ⟨?_, rfl, rfl, rfl, ?_⟩
  · show negIncomplete s.curSmoothing (negIncomplete s.curSmoothing s.uspb) = s.uspb
    exact negIncomplete_invol s.curSmoothing s.uspb h
  · intro i h1 h2
    show (negIncomplete s.curSmoothing s.uspb).getD i 0 = _
    exact negIncomplete_getD s.curSmoothing s.uspb i h1 h2

/-- Witness for C10 on a table with one incomplete and one complete bucket:
the in-memory means survive, the written block negates the first mean. -/
theorem writeEEPROM_preserves_table_witness :
    (writeEEPROM wTableState).1.uspb = wTableState.uspb ∧
    (writeEEPROM wTableState).2.uspb.getD 0 0 =
      (if wTableState.curSmoothing.getD 0 0 ≤ TGT_SMOOTHING
       then -(wTableState.uspb.getD 0 0) else wTableState.uspb.getD 0 0) ∧
    (writeEEPROM wTableState).2.uspb.getD 1 0 =
      (if wTableState.curSmoothing.getD 1 0 ≤ TGT_SMOOTHING
       then -(wTableState.uspb.getD 1 0) else wTableState.uspb.getD 1 0) :=
  ⟨(writeEEPROM_preserves_table wTableState (by decide)).1,
   (writeEEPROM_preserves_table wTableState (by decide)).2.2.2.2 0 (by decide) (by decide),
   (writeEEPROM_preserves_table wTableState (by decide)).2.2.2.2 1 (by decide) (by decide)⟩

/-! ## C3 -/

/-- `setRunMode` always stores the requested mode. -/
theorem setRunMode_runMode (s : State) (m : Nat) : (setRunMode s m).runMode = m := rfl

/-- Claim C3 counterexample: with valid persisted settings
(`id = SETTINGS_TAG`), a stored `peakScale` above `INIT_PEAK`, and the
stored compensation flag matching the present sensor, `enable` hot-starts
straight into RUN — not WarmStart as the claim states. -/
theorem enable_hotStart_cex :
    hotSettings.id = SETTINGS_TAG ∧ hotSettings.compensated = true ∧
    decide ((6400 : Int) ≠ NO_TEMP) = hotSettings.compensated ∧
    (enable initState hotSettings false 6400).runMode = RUN ∧
    (enable initState hotSettings false 6400).runMode ≠ WARMSTART :=
  ⟨by decide, by decide, by decide, by decide, by decide⟩

/-- Claim C3 (amended): `enable` chooses ColdStart exactly when a cold
start is forced or the stored settings are invalid; RUN (hot start) exactly
when the settings are valid, the stored `peakScale` exceeds `INIT_PEAK`
(scaling has been completed) and the stored compensation flag matches
sensor presence; and WarmStart (whose entry wipes the calibration table —
the claim's CalibrateReset behaviour) exactly when the settings are valid
but scaling is incomplete or the compensation flag mismatches the sensor. -/
theorem enable_initialMode_characterization (prior : State) (blk : Settings)
    (force : Bool) (st : Int) :
    ((enable prior blk force st).runMode = COLDSTART ↔
       (force = true ∨ blk.id ≠ SETTINGS_TAG)) ∧
    ((enable prior blk force st).runMode = RUN ↔
       (force = false ∧ blk.id = SETTINGS_TAG ∧ blk.peakScale > INIT_PEAK ∧
        decide (st ≠ NO_TEMP) = blk.compensated)) ∧
    ((enable prior blk force st).runMode = WARMSTART ↔
       (force = false ∧ blk.id = SETTINGS_TAG ∧
        ¬(blk.peakScale > INIT_PEAK ∧ decide (st ≠ NO_TEMP) = blk.compensated))) := by
  cases force with
  | true =>
    simp [enable, setRunMode_runMode, COLDSTART, RUN, WARMSTART]
  | false =>
    by_cases hid : blk.id = SETTINGS_TAG
    · by_cases ht : st = NO_TEMP <;> cases hcomp : blk.compensated <;>
        by_cases hp : INIT_PEAK < blk.peakScale <;>
        simp [enable, readEEPROM, hid, ht, hcomp, hp, setRunMode_runMode,
          COLDSTART, RUN, WARMSTART]
    · simp [enable, readEEPROM, hid, setRunMode_runMode, COLDSTART, RUN, WARMSTART]

/-! ## C1 -/

/-- Claim C1: when the bias-corrected interval exceeds 5,000,000 µs the
event is discarded: `beat` returns 0 and the only state change is the
ephemeral `deltaT := 0` — every calibration-table entry (per-bucket mean,
temperature average and sample count), `beatCounter`, the tick flag and
the timestamps are untouched. -/
theorem beat_spurious_discard (s : State) (i : Input)
    (h0 : s.lastTime ≠ 0)
    (h1 : correctedDuration (rawDelta s i) s.bias > 5000000) :
    beatO s i = some ({ s with deltaT := 0 }, 0) := by
  unfold beatO
  rw [if_neg h0, if_pos h1]

/-- Witness for C1: a 6,000,001 µs interval (zero bias) is discarded. -/
theorem beat_spurious_discard_witness :
    beatO spuriousState { topTime := 6000002, pastCoil := 0, newTemp := 6400 }
      = some ({ spuriousState with deltaT := 0 }, 0) :=
  beat_spurious_discard spuriousState _ (by decide) (by decide)

/-! ## Beat-level helper lemmas -/

/-- A successful `lget` means the index is in bounds and reads the entry. -/
theorem lget_eq_some {l : List Int} {i : Int} {v : Int} (h : lget l i = some v) :
    0 ≤ i ∧ i < (l.length : Int) ∧ l.getD i.toNat 0 = v := by
  unfold lget at h
  split at h
  · rename_i hcond
    exact ⟨hcond.1, hcond.2, Option.some.inj h⟩
  · exact absurd h (by simp)

/-- Evaluation of a RUN-mode beat: whatever the bucket (out of range or
looked up), the returned duration is the truncated model evaluation
`slope * temp + intercept + deltaUspb`, and the mode moves to CALIBRATE
exactly when the bucket is in range with an incomplete count. -/
theorem beat_run_eval (s : State) (i : Input)
    (hmode : s.runMode = RUN)
    (h0 : s.lastTime ≠ 0)
    (hT : s.temp ≠ NO_TEMP)
    (hg : ¬(correctedDuration (rawDelta s i) s.bias > 5000000)) :
    (getTempIx s.compensated i.newTemp = NO_CAL →
      (beatO s i).map Prod.snd
        = some (qtrunc (s.slope * (i.newTemp : ℚ) + s.intercept + (s.deltaUspb : ℚ))) ∧
      (beatO s i).map (fun p => p.1.runMode) = some RUN) ∧
    (∀ c, lget s.curSmoothing (getTempIx s.compensated i.newTemp) = some c →
      (beatO s i).map Prod.snd
        = some (qtrunc (s.slope * (i.newTemp : ℚ) + s.intercept + (s.deltaUspb : ℚ))) ∧
      (beatO s i).map (fun p => p.1.runMode)
        = some (if c ≤ TGT_SMOOTHING then CALIBRATE else RUN)) := by
  constructor
  · intro hix
    simp only [beatO]
    rw [if_neg h0, if_neg hg, if_pos hT]
    simp only [stepSwitch, stepRun, hmode, RUN, COLDSTART, WARMSTART, CALIBRATE,
      CALFINISH, CALRTC, hix, NO_CAL]
    norm_num
  · intro c hc
    obtain ⟨hge, hlt, _⟩ := lget_eq_some hc
    have hne : ¬(getTempIx s.compensated i.newTemp = NO_CAL) := by
      unfold NO_CAL
      omega
    simp only [beatO]
    rw [if_neg h0, if_neg hg, if_pos hT]
    simp only [stepSwitch, stepRun, hmode, RUN, COLDSTART, WARMSTART, CALIBRATE,
      CALFINISH, CALRTC, TGT_SMOOTHING]
    norm_num
    rw [if_neg hne, hc]
    by_cases hcc : c ≤ (8192 : Int)
    · simp only [if_pos hcc, setRunMode]
      norm_num [COLDSTART, WARMSTART, CALIBRATE, CALFINISH, RUN, CALRTC]
    · simp only [if_neg hcc]
      norm_num [COLDSTART, WARMSTART, CALIBRATE, CALFINISH, RUN, CALRTC]

/-- Evaluation of a CALIBRATE-mode beat in the same bucket as the previous
event, bucket not completed by this sample: the bucket's mean is updated by
the incremental formula and its count incremented, with no condition on the
distance between the temperature and the bucket center; the corrected raw
duration is returned. -/
theorem beat_cal_update (s : State) (i : Input)
    (hmode : s.runMode = CALIBRATE)
    (h0 : s.lastTime ≠ 0)
    (hT : s.temp ≠ NO_TEMP)
    (hg : ¬(correctedDuration (rawDelta s i) s.bias > 5000000))
    (hsame : getTempIx s.compensated i.newTemp = getTempIx s.compensated s.temp)
    (hcomp : s.compensated = true)
    (u c tv : Int)
    (hu : lget s.uspb (getTempIx s.compensated i.newTemp) = some u)
    (hc : lget s.curSmoothing (getTempIx s.compensated i.newTemp) = some c)
    (htv : lget s.tempArr (getTempIx s.compensated i.newTemp) = some tv)
    (hcc : c + 1 ≤ TGT_SMOOTHING) :
    (beatO s i).map (fun p => (p.1.uspb, p.1.curSmoothing, p.2))
      = some (lset s.uspb (getTempIx s.compensated i.newTemp)
                (u + (correctedDuration (rawDelta s i) s.bias - u).tdiv c),
              lset s.curSmoothing (getTempIx s.compensated i.newTemp) (c + 1),
              correctedDuration (rawDelta s i) s.bias) := by
  simp only [beatO]
  rw [if_neg h0, if_neg hg, if_pos hT]
  simp only [stepSwitch, stepCal, stepCalRest, hmode, COLDSTART, WARMSTART,
    CALIBRATE, CALFINISH, RUN, CALRTC, TGT_SMOOTHING, recordSample]
  norm_num
  rw [hsame] at hu hc htv ⊢
  rw [hcomp] at hu hc htv ⊢
  simp only [ne_eq, not_true_eq_false, if_false, ite_self, if_true]
  have hcc' : c + 1 ≤ (8192 : Int) := hcc
  have hnlt : ¬((8192 : Int) < c + 1) := by omega
  cases hb : s.tick <;> simp only [hb, if_true, if_false, Bool.false_eq_true] <;>
    rw [hu, hc] <;> simp only [if_true] <;> rw [htv] <;>
    simp [hnlt, lset] <;>
    exact ⟨_, _, ⟨rfl, rfl⟩, rfl, rfl, rfl⟩

/-- Evaluation of a CALIBRATE-mode beat that completes its bucket: the
settings are persisted (`id` becomes the format tag via `writeEEPROM`) and
the mode moves to CALFINISH. -/
theorem beat_cal_complete (s : State) (i : Input)
    (hmode : s.runMode = CALIBRATE)
    (h0 : s.lastTime ≠ 0)
    (hT : s.temp ≠ NO_TEMP)
    (hg : ¬(correctedDuration (rawDelta s i) s.bias > 5000000))
    (hsame : getTempIx s.compensated i.newTemp = getTempIx s.compensated s.temp)
    (hcomp : s.compensated = true)
    (u c tv : Int)
    (hu : lget s.uspb (getTempIx s.compensated i.newTemp) = some u)
    (hc : lget s.curSmoothing (getTempIx s.compensated i.newTemp) = some c)
    (htv : lget s.tempArr (getTempIx s.compensated i.newTemp) = some tv)
    (hfull : TGT_SMOOTHING < c + 1) :
    (beatO s i).map (fun p => (p.1.runMode, p.1.id))
      = some (CALFINISH, SETTINGS_TAG) := by
  simp only [beatO]
  rw [if_neg h0, if_neg hg, if_pos hT]
  simp only [stepSwitch, stepCal, stepCalRest, hmode, COLDSTART, WARMSTART,
    CALIBRATE, CALFINISH, RUN, CALRTC, TGT_SMOOTHING, recordSample]
  norm_num
  rw [hsame] at hu hc htv ⊢
  rw [hcomp] at hu hc htv ⊢
  simp only [ne_eq, not_true_eq_false, if_false, ite_self, if_true]
  have hlt : (8192 : Int) < c + 1 := hfull
  cases hb : s.tick <;> simp only [hb, if_true, if_false, Bool.false_eq_true] <;>
    rw [hu, hc] <;> simp only [if_true] <;> rw [htv] <;>
    simp [hlt, lset, writeEEPROM, setRunMode, SETTINGS_TAG, COLDSTART,
      WARMSTART, CALIBRATE, CALFINISH, RUN, CALRTC]

/-- Evaluation of a CALFINISH-mode beat: unconditional switch to RUN (the
model is fitted on entry to RUN). -/
theorem beat_calfinish_run (s : State) (i : Input)
    (hmode : s.runMode = CALFINISH)
    (h0 : s.lastTime ≠ 0)
    (hg : ¬(correctedDuration (rawDelta s i) s.bias > 5000000)) :
    (beatO s i).map (fun p => p.1.runMode) = some RUN := by
  simp only [beatO]
  rw [if_neg h0, if_neg hg]
  by_cases hT : s.temp ≠ NO_TEMP
  · rw [if_pos hT]
    simp only [stepSwitch, hmode, COLDSTART, WARMSTART, CALIBRATE, CALFINISH,
      RUN, CALRTC]
    norm_num [setRunMode]
  · rw [if_neg hT]
    simp only [stepSwitch, hmode, COLDSTART, WARMSTART, CALIBRATE, CALFINISH,
      RUN, CALRTC]
    norm_num [setRunMode]

/-! ## C5 -/

/-- Claim C5 counterexample: in RUN mode with the temperature out of range
(50 °C, bucket `NO_CAL`), the code does not fall back to the bias-corrected
raw duration (1,000,000 µs): it still returns the model evaluation (0 here,
the model being zero). -/
theorem run_outOfRange_cex :
    runState.runMode = RUN ∧
    getTempIx runState.compensated 12800 = NO_CAL ∧
    correctedDuration
      (rawDelta runState { topTime := 1001000, pastCoil := 0, newTemp := 12800 })
      runState.bias = 1000000 ∧
    (beatO runState { topTime := 1001000, pastCoil := 0, newTemp := 12800 }).map
      Prod.snd = some 0 ∧
    (0 : Int) ≠ 1000000 := by
  refine ⟨by decide, by decide, by decide, ?_, by decide⟩
  have h := (beat_run_eval runState { topTime := 1001000, pastCoil := 0, newTemp := 12800 }
    (by decide) (by decide) (by decide) (by decide)).1 (by decide)
  rw [h.1]
  have e : runState.slope * ((12800 : Int) : ℚ) + runState.intercept
      + ((runState.deltaUspb : Int) : ℚ) = 0 := by
    norm_num [runState]
  rw [e]
  norm_num [qtrunc]

/-- Claim C5 (amended): every RUN-mode event returns the truncated model
evaluation `slope * temp + intercept + deltaUspb`, whether or not the
bucket is out of range, the model unset, or the bucket incomplete — there
is no raw-duration fallback and no transition to Model; the only mode
change is to Collect (CALIBRATE) for subsequent events, exactly when the
bucket is in range and its sample count not above `TGT_SMOOTHING`. -/
theorem run_mode_returns_model_value (s : State) (i : Input)
    (hmode : s.runMode = RUN)
    (h0 : s.lastTime ≠ 0)
    (hT : s.temp ≠ NO_TEMP)
    (hg : ¬(correctedDuration (rawDelta s i) s.bias > 5000000)) :
    (getTempIx s.compensated i.newTemp = NO_CAL →
      (beatO s i).map Prod.snd
        = some (qtrunc (s.slope * (i.newTemp : ℚ) + s.intercept + (s.deltaUspb : ℚ))) ∧
      (beatO s i).map (fun p => p.1.runMode) = some RUN) ∧
    (∀ c, lget s.curSmoothing (getTempIx s.compensated i.newTemp) = some c →
      (beatO s i).map Prod.snd
        = some (qtrunc (s.slope * (i.newTemp : ℚ) + s.intercept + (s.deltaUspb : ℚ))) ∧
      (beatO s i).map (fun p => p.1.runMode)
        = some (if c ≤ TGT_SMOOTHING then CALIBRATE else RUN)) :=
  beat_run_eval s i hmode h0 hT hg

/-- Witness for C5's amended theorem: the complete-bucket RUN state stays
in RUN and returns the model evaluation. -/
theorem run_mode_returns_model_value_witness :
    (beatO runState { topTime := 1001000, pastCoil := 0, newTemp := 6400 }).map
      Prod.snd = some (qtrunc (runState.slope * ((6400 : Int) : ℚ)
        + runState.intercept + (runState.deltaUspb : ℚ))) ∧
    (beatO runState { topTime := 1001000, pastCoil := 0, newTemp := 6400 }).map
      (fun p => p.1.runMode)
      = some (if (9000 : Int) ≤ TGT_SMOOTHING then CALIBRATE else RUN) :=
  (run_mode_returns_model_value runState
    { topTime := 1001000, pastCoil := 0, newTemp := 6400 }
    (by decide) (by decide) (by decide) (by decide)).2 9000 (by decide)

/-! ## C7 -/

/-- Claim C7 counterexample: in Collect (CALIBRATE) mode, a beat whose
temperature 4708 is at fixed-point distance 100 > 32 from the bucket-0
center (18 °C = 4608) still updates the bucket: the mean goes from 0 to
1,000,000 and the count from 1 to 2 — there is no admission tolerance in
the code. -/
theorem calibrate_no_admission_tolerance_cex :
    calState.runMode = CALIBRATE ∧
    calState.temp - 4608 = 100 ∧ ¬((100 : Int) ≤ 32) ∧
    calState.uspb.getD 0 0 = 0 ∧ calState.curSmoothing.getD 0 0 = 1 ∧
    (beatO calState { topTime := 1001000, pastCoil := 0, newTemp := 4708 }).map
      (fun p => (p.1.uspb.getD 0 0, p.1.curSmoothing.getD 0 0)) = some (1000000, 2) :=
  ⟨by decide, by decide, by decide, by decide, by decide, by decide⟩

/-- Claim C7 (amended): during Collect, every beat whose bucket index is in
range (and equal to the previous event's bucket, the bucket not completed
by this sample) updates that bucket's table entry by the incremental-mean
formula and increments its count, regardless of the fixed-point distance
between the temperature and the bucket center: the source has no ±1/8 °C
admission tolerance. -/
theorem calibrate_updates_regardless_of_center_distance (s : State) (i : Input)
    (hmode : s.runMode = CALIBRATE)
    (h0 : s.lastTime ≠ 0)
    (hT : s.temp ≠ NO_TEMP)
    (hg : ¬(correctedDuration (rawDelta s i) s.bias > 5000000))
    (hsame : getTempIx s.compensated i.newTemp = getTempIx s.compensated s.temp)
    (hcomp : s.compensated = true)
    (u c tv : Int)
    (hu : lget s.uspb (getTempIx s.compensated i.newTemp) = some u)
    (hc : lget s.curSmoothing (getTempIx s.compensated i.newTemp) = some c)
    (htv : lget s.tempArr (getTempIx s.compensated i.newTemp) = some tv)
    (hcc : c + 1 ≤ TGT_SMOOTHING) :
    (beatO s i).map (fun p => (p.1.uspb, p.1.curSmoothing, p.2))
      = some (lset s.uspb (getTempIx s.compensated i.newTemp)
                (u + (correctedDuration (rawDelta s i) s.bias - u).tdiv c),
              lset s.curSmoothing (getTempIx s.compensated i.newTemp) (c + 1),
              correctedDuration (rawDelta s i) s.bias) :=
  beat_cal_update s i hmode h0 hT hg hsame hcomp u c tv hu hc htv hcc

/-- Witness for C7's amended theorem at `calState` (temperature 100
fixed-point units from the bucket center): the update happens. -/
theorem calibrate_updates_regardless_of_center_distance_witness :
    (beatO calState { topTime := 1001000, pastCoil := 0, newTemp := 4708 }).map
      (fun p => (p.1.uspb, p.1.curSmoothing, p.2))
      = some (lset calState.uspb (getTempIx calState.compensated 4708)
                (0 + (correctedDuration
                  (rawDelta calState { topTime := 1001000, pastCoil := 0, newTemp := 4708 })
                  calState.bias - 0).tdiv 1),
              lset calState.curSmoothing (getTempIx calState.compensated 4708) (1 + 1),
              correctedDuration
                (rawDelta calState { topTime := 1001000, pastCoil := 0, newTemp := 4708 })
                calState.bias) :=
  calibrate_updates_regardless_of_center_distance calState
    { topTime := 1001000, pastCoil := 0, newTemp := 4708 }
    (by decide) (by decide) (by decide) (by decide) (by decide) (by decide)
    0 1 0 (by decide) (by decide) (by decide) (by decide)

/-! ## C8 -/

/-- Claim C8 (code bug): in Collect (CALIBRATE) mode with the temperature
out of the calibration range (50 °C, `getTempIx = NO_CAL = -1`), the code
is NOT a no-op: it indexes `curSmoothing[-1]` and `uspb[-1]`, out of
bounds (undefined behaviour) — the error branch of the embedded indexing
is taken (`beatO` returns `none`), contradicting the claimed in-bounds
no-op. RUN mode guards this very index against `NO_CAL` (line 280), so the
missing guard in CALIBRATE is a slip. -/
theorem calibrate_outOfRange_oob :
    calState.runMode = CALIBRATE ∧
    getTempIx calState.compensated 12800 = NO_CAL ∧
    beatO calState { topTime := 1001000, pastCoil := 0, newTemp := 12800 } = none :=
  ⟨by decide, by decide, by decide⟩

/-! ## C4 -/

set_option maxRecDepth 100000 in
/-- Concrete cold-start trace: starting from a zero-initialised object with
no valid EEPROM and a 25 °C sensor, after the baseline event plus 513
further events (one baseline, one ColdStart event, 512 WarmStart events)
the mode is CALIBRATE (Collect) — WARMSTART hands over directly to
CALIBRATE with no CALFINISH (Model) visit and no fit attempt. -/
theorem trace514_calibrate :
    (runBeats (enable initState blankSettings false 6400) (mkInputs 514)).map
      State.runMode = some CALIBRATE := by
  decide

/-- Claim C4 counterexample: after `enable(false)` with no persisted
settings, one baseline event, one processed event (ColdStart → WarmStart)
and `TGT_SCALE` = 512 further processed events, the mode is CALIBRATE
(Collect), not CALFINISH (Model) as the claim's trace demands. -/
theorem warmup_exit_mode_cex :
    (runBeats (enable initState blankSettings false 6400) (mkInputs 514)).map
      State.runMode = some CALIBRATE ∧ CALIBRATE ≠ CALFINISH :=
  ⟨trace514_calibrate, by decide⟩

/-- Claim C4 (amended): with no persisted settings and a present sensor,
`enable(false)` selects ColdStart; after the baseline event and one
processed event the mode is WarmStart; after `TGT_SCALE` (=512) further
processed events the mode is Collect (CALIBRATE) directly — no fit is
attempted and the Model phase is not visited at warm-start exit; when a
bucket's count passes `TGT_SMOOTHING` (reaching `TGT_SMOOTHING`+1), the
settings are persisted (`id` becomes the format tag) and the mode becomes
Model (CALFINISH); and the next event unconditionally moves Model → Run
(the fit happens on entry to Run and cannot fail into Collect). -/
theorem calibration_state_machine_trace :
    (enable initState blankSettings false 6400).runMode = COLDSTART ∧
    (runBeats (enable initState blankSettings false 6400) (mkInputs 2)).map
      State.runMode = some WARMSTART ∧
    (runBeats (enable initState blankSettings false 6400) (mkInputs 514)).map
      State.runMode = some CALIBRATE ∧
    (∀ (s : State) (i : Input), s.runMode = CALIBRATE → s.lastTime ≠ 0 →
      s.temp ≠ NO_TEMP →
      ¬(correctedDuration (rawDelta s i) s.bias > 5000000) →
      getTempIx s.compensated i.newTemp = getTempIx s.compensated s.temp →
      s.compensated = true →
      ∀ u tv : Int,
        lget s.uspb (getTempIx s.compensated i.newTemp) = some u →
        lget s.curSmoothing (getTempIx s.compensated i.newTemp) = some TGT_SMOOTHING →
        lget s.tempArr (getTempIx s.compensated i.newTemp) = some tv →
        (beatO s i).map (fun p => (p.1.runMode, p.1.id))
          = some (CALFINISH, SETTINGS_TAG)) ∧
    (∀ (s : State) (i : Input), s.runMode = CALFINISH → s.lastTime ≠ 0 →
      ¬(correctedDuration (rawDelta s i) s.bias > 5000000) →
      (beatO s i).map (fun p => p.1.runMode) = some RUN) := by
  refine ⟨by decide, by decide, trace514_calibrate, ?_, ?_⟩
  · intro s i hmode h0 hT hg hsame hcomp u tv hu hc htv
    exact beat_cal_complete s i hmode h0 hT hg hsame hcomp u TGT_SMOOTHING tv
      hu hc htv (by norm_num [TGT_SMOOTHING])
  · intro s i hmode h0 hg
    exact beat_calfinish_run s i hmode h0 hg

/-- Witness for C4's amended theorem: a bucket at count `TGT_SMOOTHING`
completes on the next event (persist + CALFINISH), and a CALFINISH state
moves to RUN. -/
theorem calibration_state_machine_trace_witness :
    (beatO calDoneState { topTime := 1001000, pastCoil := 0, newTemp := 6400 }).map
      (fun p => (p.1.runMode, p.1.id)) = some (CALFINISH, SETTINGS_TAG) ∧
    (beatO calFinState { topTime := 1001000, pastCoil := 0, newTemp := 6400 }).map
      (fun p => p.1.runMode) = some RUN :=
  ⟨calibration_state_machine_trace.2.2.2.1 calDoneState
      { topTime := 1001000, pastCoil := 0, newTemp := 6400 }
      (by decide) (by decide) (by decide) (by decide) (by decide) (by decide)
      1000000 0 (by decide) (by decide) (by decide),
   calibration_state_machine_trace.2.2.2.2 calFinState
      { topTime := 1001000, pastCoil := 0, newTemp := 6400 }
      (by decide) (by decide) (by decide)⟩
